import Mathlib

/-!
Shallow embedding of `pkg/jx/cmd/create_gke_service_account.go`
(`CreateGkeServiceAccountOptions.Run` and `getGoogleProjectId`).

Collaborator behaviour (gcloud login, `gke.GetGoogleProjects`,
`gke.GetOrCreateServiceAccount`, and the answers of the `survey` prompts)
is supplied through an `Env` record.  Each embedded function returns,
besides its Go return values, the list of externally visible events
(prompts shown, collaborator calls made, messages logged), so that
claims about "no prompt is issued" or "login runs first" are statable.
-/

namespace CreateGkeSA

/-- An error value (Go `error`).  `msg s` is `errors.New(s)` / any
collaborator error carrying message `s`; `promptAbort` models the user
aborting a `survey` prompt (e.g. Ctrl-C), which `survey.AskOne` surfaces
as a non-nil error. -/
inductive GError where
  | msg (s : String)
  | promptAbort
  deriving DecidableEq, Repr

/-- Externally visible events of one run, in order. -/
inductive Event where
  /-- the `gcloud auth login --brief` shell-out -/
  | login
  /-- one display of the service-account name `survey.Input` prompt -/
  | namePrompt
  /-- the call to `gke.GetGoogleProjects()` -/
  | listProjects
  /-- the zero-projects `survey.Confirm` prompt -/
  | confirmPrompt
  /-- the `survey.Select` prompt, carrying the option list it offers -/
  | selectPrompt (options : List String)
  /-- the call to `gke.GetOrCreateServiceAccount(name, project, homeDir)` -/
  | getOrCreate (name project homeDir : String)
  /-- a `log.Infof` message -/
  | logInfo (s : String)
  deriving DecidableEq, Repr

/-- The Go `len` of a string: the number of its UTF-8 bytes. -/
def goLen (s : String) : Nat := s.utf8ByteSize

/-- The flags struct `CreateGkeServiceAccountFlags`. -/
structure CreateGkeServiceAccountFlags where
  Name : String
  Project : String
  SkipLogin : Bool
  deriving DecidableEq, Repr

/-- Behaviour of the collaborators and of the interactive user for one run. -/
structure Env where
  /-- outcome of `o.runCommandVerbose("gcloud", "auth", "login", "--brief")` -/
  loginResult : Except GError Unit
  /-- outcome of `gke.GetGoogleProjects()` -/
  projectsResult : Except GError (List String)
  /-- the successive strings the user types at the name `survey.Input`
  prompt; when they are exhausted the prompt is aborted -/
  nameInputs : List String
  /-- answer to the zero-projects `survey.Confirm` prompt
  (`.error` = prompt aborted) -/
  confirmResult : Except GError Bool
  /-- answer of the `survey.Select` prompt, given the option list it shows
  (`.error` = prompt aborted) -/
  selectResult : List String → Except GError String
  /-- outcome of `gke.GetOrCreateServiceAccount(name, project, homeDir)` -/
  getOrCreateResult : String → String → String → Except GError String
  /-- `util.HomeDir()` -/
  homeDir : String

/-- The validator closure passed to `survey.AskOne` for the name prompt.
In Go it receives an untyped value and asserts it to string; as the comment
in the source notes, the assertion always succeeds for an `Input` prompt, so
on strings it reduces to the length test. -/
def nameValidator (str : String) : Except String Unit :=
  if goLen str < 6 then
    .error "Service Account name must be longer than 5 characters"
  else
    .ok ()

/-- `survey.AskOne(Input, &name, validator)`: the prompt repeats until an
input passes the validator; running out of inputs models an abort.  Returns
the accepted string and one `namePrompt` event per display of the prompt. -/
def askOneName : List String → Except GError String × List Event
  | [] => (.error .promptAbort, [.namePrompt])
  | a :: rest =>
    match nameValidator a with
    | .ok _ => (.ok a, [.namePrompt])
    | .error _ =>
      let r := askOneName rest
      (r.1, .namePrompt :: r.2)

/-- Log text of `log.Infof("Using the only Google Cloud Project %s to create
the cluster\n", util.ColorInfo(projectId))` (colour codes elided). -/
def usingOnlyProjectMsg (projectId : String) : String :=
  "Using the only Google Cloud Project " ++ projectId ++ " to create the cluster\n"

/-- Log text of `log.Infof("Created service account key %s\n",
util.ColorInfo(path))` (colour codes elided). -/
def createdKeyMsg (path : String) : String :=
  "Created service account key " ++ path ++ "\n"

/-- Error of the zero-projects branch when the user answers "no". -/
def noProjectErr : GError :=
  .msg "no google project to create cluster in, please manual create one and rerun this wizard"

/-- Error of the zero-projects branch when the user answers "yes". -/
def notImplementedErr : GError :=
  .msg "auto creating projects not yet implemented, please manually create one and rerun the wizard"

/-- Error of the defensive empty-projectId check at the end of
`getGoogleProjectId`. -/
def emptyProjectErr : GError :=
  .msg "no Google Cloud Project to create cluster in, please manual create one and rerun this wizard"

/-- The trailing `if projectId == "" { return "", errors.New(...) }` check of
`getGoogleProjectId`, shared by the branches that fall through to it. -/
def finishProjectId (projectId : String) (evs : List Event) :
    Except GError String × List Event :=
  if projectId = "" then (.error emptyProjectErr, evs) else (.ok projectId, evs)

/-- `(o *CreateGkeServiceAccountOptions) getGoogleProjectId() (string, error)`. -/
def getGoogleProjectId (env : Env) : Except GError String × List Event :=
  match env.projectsResult with
  | .error e => (.error e, [.listProjects])
  | .ok existingProjects =>
    if existingProjects.length = 0 then
      match env.confirmResult with
      | .error e => (.error e, [.listProjects, .confirmPrompt])
      | .ok flag =>
        if !flag then
          (.error noProjectErr, [.listProjects, .confirmPrompt])
        else
          (.error notImplementedErr, [.listProjects, .confirmPrompt])
    else if h : existingProjects.length = 1 then
      let projectId := existingProjects.get ⟨0, by omega⟩
      finishProjectId projectId
        [.listProjects, .logInfo (usingOnlyProjectMsg projectId)]
    else
      match env.selectResult existingProjects with
      | .error e => (.error e, [.listProjects, .selectPrompt existingProjects])
      | .ok projectId =>
        finishProjectId projectId [.listProjects, .selectPrompt existingProjects]

/-- Decidable equality on `Except`, so that concrete runs can be checked
by `decide`. -/
def exceptDecEq {ε α : Type} [DecidableEq ε] [DecidableEq α] :
    (a b : Except ε α) → Decidable (a = b)
  | .error e, .error f =>
    if h : e = f then .isTrue (by rw [h]) else .isFalse (by simp [h])
  | .error _, .ok _ => .isFalse (by simp)
  | .ok _, .error _ => .isFalse (by simp)
  | .ok a, .ok b =>
    if h : a = b then .isTrue (by rw [h]) else .isFalse (by simp [h])

instance {ε α : Type} [DecidableEq ε] [DecidableEq α] : DecidableEq (Except ε α) :=
  exceptDecEq

/-- Result of one `Run`: the Go return value (`error` only — the Go
signature is `Run() error`), the event trace, and the final state of
`o.Flags` (Go mutates the struct in place). -/
structure RunResult where
  result : Except GError Unit
  events : List Event
  flags : CreateGkeServiceAccountFlags
  deriving DecidableEq, Repr

/-- Tail of `Run` from `gke.GetOrCreateServiceAccount(...)` on. -/
def runGetOrCreate (env : Env) (flags : CreateGkeServiceAccountFlags) : RunResult :=
  match env.getOrCreateResult flags.Name flags.Project env.homeDir with
  | .error e =>
    ⟨.error e, [.getOrCreate flags.Name flags.Project env.homeDir], flags⟩
  | .ok path =>
    ⟨.ok (), [.getOrCreate flags.Name flags.Project env.homeDir,
              .logInfo (createdKeyMsg path)], flags⟩

/-- Tail of `Run` from the `if o.Flags.Project == ""` step on. -/
def runProjectStep (env : Env) (flags : CreateGkeServiceAccountFlags) : RunResult :=
  if flags.Project = "" then
    match getGoogleProjectId env with
    | (.error e, pevs) => ⟨.error e, pevs, flags⟩
    | (.ok projectId, pevs) =>
      let r := runGetOrCreate env { flags with Project := projectId }
      ⟨r.result, pevs ++ r.events, r.flags⟩
  else
    runGetOrCreate env flags

/-- Tail of `Run` from the `if o.Flags.Name == ""` step on. -/
def runNameStep (env : Env) (flags : CreateGkeServiceAccountFlags) : RunResult :=
  if flags.Name = "" then
    match askOneName env.nameInputs with
    | (.error e, nevs) => ⟨.error e, nevs, flags⟩
    | (.ok name, nevs) =>
      let r := runProjectStep env { flags with Name := name }
      ⟨r.result, nevs ++ r.events, r.flags⟩
  else
    runProjectStep env flags

/-- `(o *CreateGkeServiceAccountOptions) Run() error`, as a function of the
collaborator behaviour and the initial `o.Flags`. -/
def Run (env : Env) (flags : CreateGkeServiceAccountFlags) : RunResult :=
  if !flags.SkipLogin then
    match env.loginResult with
    | .error e => ⟨.error e, [.login], flags⟩
    | .ok _ =>
      let r := runNameStep env flags
      ⟨r.result, .login :: r.events, r.flags⟩
  else
    runNameStep env flags

/-- Does this event display the `survey.Select` project prompt? -/
def isSelectPromptEv : Event → Bool
  | .selectPrompt _ => true
  | _ => false

/-- Is this event one of the project-resolution interactions: the call to
`gke.GetGoogleProjects` or one of the project prompts? -/
def isResolverEv : Event → Bool
  | .listProjects => true
  | .confirmPrompt => true
  | .selectPrompt _ => true
  | _ => false

/-- The run obtained a key path from `GetOrCreateServiceAccount`, called at
the final flag values, and logged exactly that path. -/
def reportsOkPath (env : Env) (r : RunResult) : Prop :=
  ∃ path, env.getOrCreateResult r.flags.Name r.flags.Project env.homeDir = .ok path
    ∧ Event.logInfo (createdKeyMsg path) ∈ r.events

/-- A concrete environment with exactly one existing project; the first
typed name is too short, the second is accepted. -/
def envOneProject : Env where
  loginResult := .ok ()
  projectsResult := .ok ["proj-1"]
  nameInputs := ["abc", "svc-account"]
  confirmResult := .ok true
  selectResult := fun _ => .error .promptAbort
  getOrCreateResult := fun _ _ _ => .ok "/home/user/svc-account-key.json"
  homeDir := "/home/user"

/-- Three existing projects; the selection prompt answers "b". -/
def envThreeProjects : Env :=
  { envOneProject with
    projectsResult := .ok ["a", "b", "c"]
    selectResult := fun opts =>
      if opts = ["a", "b", "c"] then .ok "b" else .error .promptAbort }

/-- Zero existing projects; the confirmation prompt is answered "no". -/
def envZeroProjectsNo : Env :=
  { envOneProject with
    projectsResult := .ok ([] : List String)
    confirmResult := .ok false }

/-- Zero existing projects; the confirmation prompt is answered "yes". -/
def envZeroProjectsYes : Env :=
  { envOneProject with
    projectsResult := .ok ([] : List String)
    confirmResult := .ok true }

/-- The `gcloud auth login` shell-out fails. -/
def envLoginFail : Env :=
  { envOneProject with loginResult := .error (.msg "login failed") }

/-- The provider issues the credential key at path A. -/
def envKeyPathA : Env :=
  { envOneProject with getOrCreateResult := fun _ _ _ => .ok "/home/user/keyA.json" }

/-- The provider issues the credential key at path B. -/
def envKeyPathB : Env :=
  { envOneProject with getOrCreateResult := fun _ _ _ => .ok "/home/user/keyB.json" }

/-! Helper lemmas about the embedded functions. -/

theorem finishProjectId_snd (p : String) (evs : List Event) :
    (finishProjectId p evs).2 = evs := by
  unfold finishProjectId; split <;> rfl

theorem finishProjectId_ok {p q : String} {evs : List Event}
    (h : (finishProjectId p evs).1 = .ok q) : q = p ∧ q ≠ "" := by
  unfold finishProjectId at h
  split at h
  · simp at h
  · next hne =>
    simp at h
    exact ⟨h.symm, by rw [← h]; exact hne⟩

theorem askOneName_events (inputs : List String) :
    ∀ e ∈ (askOneName inputs).2, e = Event.namePrompt := by
  induction inputs with
  | nil => intro e he; simpa [askOneName] using he
  | cons x rest ih =>
    intro e he
    by_cases hv : goLen x < 6
    · simp only [askOneName, nameValidator, if_pos hv] at he
      rcases List.mem_cons.1 he with h | h
      · exact h
      · exact ih e h
    · simpa [askOneName, nameValidator, hv] using he

theorem askOneName_ok {inputs : List String} {a : String}
    (h : (askOneName inputs).1 = .ok a) : 6 ≤ goLen a := by
  induction inputs with
  | nil => simp [askOneName] at h
  | cons x rest ih =>
    by_cases hv : goLen x < 6
    · simp only [askOneName, nameValidator, if_pos hv] at h
      exact ih h
    · simp [askOneName, nameValidator, hv] at h
      rw [← h]
      omega

theorem getGoogleProjectId_events_shape (env : Env) :
    (getGoogleProjectId env).2 = [.listProjects]
    ∨ (getGoogleProjectId env).2 = [.listProjects, .confirmPrompt]
    ∨ (∃ s, (getGoogleProjectId env).2 = [.listProjects, .logInfo s])
    ∨ ∃ l, (getGoogleProjectId env).2 = [.listProjects, .selectPrompt l] := by
  unfold getGoogleProjectId
  split
  · left; rfl
  · split
    · split
      · right; left; rfl
      · split
        · right; left; rfl
        · right; left; rfl
    · split
      · right; right; left; exact ⟨_, by rw [finishProjectId_snd]⟩
      · split
        · right; right; right; exact ⟨_, rfl⟩
        · right; right; right; exact ⟨_, by rw [finishProjectId_snd]⟩

theorem getGoogleProjectId_events_mem (env : Env) :
    ∀ e ∈ (getGoogleProjectId env).2,
      isResolverEv e = true ∨ ∃ s, e = Event.logInfo s := by
  intro e he
  rcases getGoogleProjectId_events_shape env with h | h | ⟨s, h⟩ | ⟨l, h⟩ <;>
    rw [h] at he <;> simp at he
  · subst he; exact Or.inl rfl
  · rcases he with he | he <;> subst he <;> exact Or.inl rfl
  · rcases he with he | he
    · subst he; exact Or.inl rfl
    · subst he; exact Or.inr ⟨s, rfl⟩
  · rcases he with he | he <;> subst he <;> exact Or.inl rfl

theorem runGetOrCreate_flags (env : Env) (flags : CreateGkeServiceAccountFlags) :
    (runGetOrCreate env flags).flags = flags := by
  unfold runGetOrCreate; split <;> rfl

theorem runGetOrCreate_events_shape (env : Env) (flags : CreateGkeServiceAccountFlags) :
    (runGetOrCreate env flags).events
      = [.getOrCreate flags.Name flags.Project env.homeDir]
    ∨ ∃ path, (runGetOrCreate env flags).events
      = [.getOrCreate flags.Name flags.Project env.homeDir, .logInfo (createdKeyMsg path)] := by
  unfold runGetOrCreate; split
  · left; rfl
  · right; exact ⟨_, rfl⟩

theorem runGetOrCreate_events_mem (env : Env) (flags : CreateGkeServiceAccountFlags) :
    ∀ e ∈ (runGetOrCreate env flags).events,
      (∃ p h, e = Event.getOrCreate flags.Name p h) ∨ ∃ s, e = Event.logInfo s := by
  intro e he
  rcases runGetOrCreate_events_shape env flags with h | ⟨path, h⟩ <;> rw [h] at he <;>
    simp at he
  · subst he; exact Or.inl ⟨_, _, rfl⟩
  · rcases he with he | he
    · subst he; exact Or.inl ⟨_, _, rfl⟩
    · subst he; exact Or.inr ⟨_, rfl⟩

theorem runGetOrCreate_no_resolver (env : Env) (flags : CreateGkeServiceAccountFlags) :
    ((runGetOrCreate env flags).events.all fun e => !(isResolverEv e)) = true := by
  rcases runGetOrCreate_events_shape env flags with h | ⟨path, h⟩ <;> rw [h] <;> rfl

theorem runGetOrCreate_ok (env : Env) (flags : CreateGkeServiceAccountFlags)
    (h : (runGetOrCreate env flags).result = .ok ()) :
    reportsOkPath env (runGetOrCreate env flags) := by
  cases hg : env.getOrCreateResult flags.Name flags.Project env.homeDir with
  | error e =>
    unfold runGetOrCreate at h
    rw [hg] at h
    simp at h
  | ok path =>
    refine ⟨path, ?_, ?_⟩
    · rw [runGetOrCreate_flags]
      exact hg
    · unfold runGetOrCreate
      rw [hg]
      simp

theorem reportsOkPath_mono (env : Env) (r1 r2 : RunResult) (hf : r2.flags = r1.flags)
    (he : ∀ e, e ∈ r1.events → e ∈ r2.events) (h : reportsOkPath env r1) :
    reportsOkPath env r2 := by
  rcases h with ⟨path, h1, h2⟩
  exact ⟨path, by rw [hf]; exact h1, he _ h2⟩

theorem runProjectStep_eq_of_project_ne (env : Env)
    (flags : CreateGkeServiceAccountFlags) (hp : flags.Project ≠ "") :
    runProjectStep env flags = runGetOrCreate env flags := by
  unfold runProjectStep; rw [if_neg hp]

theorem runProjectStep_events_mem (env : Env) (flags : CreateGkeServiceAccountFlags) :
    ∀ e ∈ (runProjectStep env flags).events,
      isResolverEv e = true ∨ (∃ s, e = Event.logInfo s)
      ∨ ∃ p h, e = Event.getOrCreate flags.Name p h := by
  intro e he
  unfold runProjectStep at he
  by_cases hp : flags.Project = ""
  · rw [if_pos hp] at he
    rcases hg : getGoogleProjectId env with ⟨r, pevs⟩
    rw [hg] at he
    cases r with
    | error err =>
      simp only at he
      have : e ∈ (getGoogleProjectId env).2 := by rw [hg]; exact he
      rcases getGoogleProjectId_events_mem env e this with h | h
      · exact Or.inl h
      · exact Or.inr (Or.inl h)
    | ok projectId =>
      simp only at he
      rcases List.mem_append.1 he with h | h
      · have : e ∈ (getGoogleProjectId env).2 := by rw [hg]; exact h
        rcases getGoogleProjectId_events_mem env e this with h1 | h1
        · exact Or.inl h1
        · exact Or.inr (Or.inl h1)
      · rcases runGetOrCreate_events_mem env _ e h with h1 | h1
        · exact Or.inr (Or.inr h1)
        · exact Or.inr (Or.inl h1)
  · rw [if_neg hp] at he
    rcases runGetOrCreate_events_mem env flags e he with h1 | h1
    · exact Or.inr (Or.inr h1)
    · exact Or.inr (Or.inl h1)

theorem runProjectStep_flags_Name (env : Env) (flags : CreateGkeServiceAccountFlags) :
    (runProjectStep env flags).flags.Name = flags.Name := by
  unfold runProjectStep
  by_cases hp : flags.Project = ""
  · rw [if_pos hp]
    rcases hg : getGoogleProjectId env with ⟨r, pevs⟩
    cases r with
    | error err => rfl
    | ok projectId => simp [runGetOrCreate_flags]
  · rw [if_neg hp, runGetOrCreate_flags]

theorem runProjectStep_project_change (env : Env)
    (flags : CreateGkeServiceAccountFlags)
    (h : (runProjectStep env flags).flags.Project ≠ flags.Project) :
    flags.Project = ""
    ∧ (getGoogleProjectId env).1 = .ok ((runProjectStep env flags).flags.Project) := by
  by_cases hp : flags.Project = ""
  · refine ⟨hp, ?_⟩
    unfold runProjectStep at h ⊢
    rw [if_pos hp] at h ⊢
    rcases hg : getGoogleProjectId env with ⟨r, pevs⟩
    rw [hg] at h
    cases r with
    | error err => exact absurd rfl h
    | ok projectId => simp [runGetOrCreate_flags]
  · exfalso
    apply h
    rw [runProjectStep_eq_of_project_ne env flags hp, runGetOrCreate_flags]

theorem runProjectStep_ok (env : Env) (flags : CreateGkeServiceAccountFlags)
    (h : (runProjectStep env flags).result = .ok ()) :
    reportsOkPath env (runProjectStep env flags) := by
  unfold runProjectStep at h ⊢
  by_cases hp : flags.Project = ""
  · rw [if_pos hp] at h ⊢
    rcases hg : getGoogleProjectId env with ⟨r, pevs⟩
    rw [hg] at h
    cases r with
    | error err => simp at h
    | ok projectId =>
      have h2 : (runGetOrCreate env { flags with Project := projectId }).result = .ok () := h
      show reportsOkPath env
        ⟨(runGetOrCreate env { flags with Project := projectId }).result,
         pevs ++ (runGetOrCreate env { flags with Project := projectId }).events,
         (runGetOrCreate env { flags with Project := projectId }).flags⟩
      refine reportsOkPath_mono env (runGetOrCreate env { flags with Project := projectId })
        _ rfl ?_ (runGetOrCreate_ok env _ h2)
      intro e he
      exact List.mem_append.2 (Or.inr he)
  · rw [if_neg hp] at h ⊢
    exact runGetOrCreate_ok env flags h

theorem runNameStep_events_mem (env : Env) (flags : CreateGkeServiceAccountFlags) :
    ∀ e ∈ (runNameStep env flags).events,
      e = Event.namePrompt ∨ isResolverEv e = true ∨ (∃ s, e = Event.logInfo s)
      ∨ ∃ n p h, e = Event.getOrCreate n p h := by
  intro e he
  unfold runNameStep at he
  by_cases hn : flags.Name = ""
  · rw [if_pos hn] at he
    rcases han : askOneName env.nameInputs with ⟨r, nevs⟩
    rw [han] at he
    cases r with
    | error err =>
      simp only at he
      exact Or.inl (askOneName_events env.nameInputs e (by rw [han]; exact he))
    | ok name =>
      simp only at he
      rcases List.mem_append.1 he with h | h
      · exact Or.inl (askOneName_events env.nameInputs e (by rw [han]; exact h))
      · rcases runProjectStep_events_mem env _ e h with h1 | h1 | ⟨p, hh, h1⟩
        · exact Or.inr (Or.inl h1)
        · exact Or.inr (Or.inr (Or.inl h1))
        · exact Or.inr (Or.inr (Or.inr ⟨_, p, hh, h1⟩))
  · rw [if_neg hn] at he
    rcases runProjectStep_events_mem env flags e he with h1 | h1 | ⟨p, hh, h1⟩
    · exact Or.inr (Or.inl h1)
    · exact Or.inr (Or.inr (Or.inl h1))
    · exact Or.inr (Or.inr (Or.inr ⟨_, p, hh, h1⟩))

theorem runNameStep_getOrCreate_valid (env : Env)
    (flags : CreateGkeServiceAccountFlags) (hname : flags.Name = "")
    {n p h : String}
    (hev : Event.getOrCreate n p h ∈ (runNameStep env flags).events) :
    6 ≤ goLen n := by
  unfold runNameStep at hev
  rw [if_pos hname] at hev
  rcases han : askOneName env.nameInputs with ⟨r, nevs⟩
  rw [han] at hev
  cases r with
  | error err =>
    simp only at hev
    have := askOneName_events env.nameInputs _ (by rw [han]; exact hev)
    simp at this
  | ok name =>
    simp only at hev
    rcases List.mem_append.1 hev with hm | hm
    · have := askOneName_events env.nameInputs _ (by rw [han]; exact hm)
      simp at this
    · rcases runProjectStep_events_mem env _ _ hm with h1 | h1 | ⟨p1, h1, heq⟩
      · simp [isResolverEv] at h1
      · rcases h1 with ⟨s, hs⟩
        simp at hs
      · have hn : n = name := by
          have := heq
          simp only [Event.getOrCreate.injEq] at this
          exact this.1
        rw [hn]
        exact askOneName_ok (by rw [han])

theorem askOneName_no_resolver (inputs : List String) :
    ((askOneName inputs).2.all fun e => !(isResolverEv e)) = true := by
  rw [List.all_eq_true]
  intro e he
  rw [askOneName_events inputs e he]
  rfl

theorem runNameStep_frame (env : Env) (flags : CreateGkeServiceAccountFlags)
    (hp : flags.Project ≠ "") :
    ((runNameStep env flags).events.all fun e => !(isResolverEv e)) = true
    ∧ (runNameStep env flags).flags.Project = flags.Project := by
  unfold runNameStep
  by_cases hn : flags.Name = ""
  · rw [if_pos hn]
    rcases han : askOneName env.nameInputs with ⟨r, nevs⟩
    cases r with
    | error err =>
      refine ⟨?_, rfl⟩
      have h1 := askOneName_no_resolver env.nameInputs
      rw [han] at h1
      exact h1
    | ok name =>
      have hp2 : ({ flags with Name := name } :
          CreateGkeServiceAccountFlags).Project ≠ "" := hp
      have h1 := askOneName_no_resolver env.nameInputs
      rw [han] at h1
      have h1n : (nevs.all fun e => !(isResolverEv e)) = true := h1
      show ((nevs ++ (runProjectStep env { flags with Name := name }).events).all
              fun e => !(isResolverEv e)) = true
        ∧ (runProjectStep env { flags with Name := name }).flags.Project = flags.Project
      rw [runProjectStep_eq_of_project_ne env _ hp2]
      constructor
      · rw [List.all_append, h1n, runGetOrCreate_no_resolver]
        rfl
      · rw [runGetOrCreate_flags]
  · rw [if_neg hn, runProjectStep_eq_of_project_ne env flags hp]
    exact ⟨runGetOrCreate_no_resolver env flags, by rw [runGetOrCreate_flags]⟩

theorem runNameStep_project_change (env : Env)
    (flags : CreateGkeServiceAccountFlags)
    (h : (runNameStep env flags).flags.Project ≠ flags.Project) :
    flags.Project = ""
    ∧ (getGoogleProjectId env).1 = .ok ((runNameStep env flags).flags.Project) := by
  unfold runNameStep at h ⊢
  by_cases hn : flags.Name = ""
  · rw [if_pos hn] at h ⊢
    rcases han : askOneName env.nameInputs with ⟨r, nevs⟩
    rw [han] at h
    cases r with
    | error err => exact absurd rfl h
    | ok name =>
      exact runProjectStep_project_change env { flags with Name := name } h
  · rw [if_neg hn] at h ⊢
    exact runProjectStep_project_change env flags h

theorem runNameStep_ok (env : Env) (flags : CreateGkeServiceAccountFlags)
    (h : (runNameStep env flags).result = .ok ()) :
    reportsOkPath env (runNameStep env flags) := by
  unfold runNameStep at h ⊢
  by_cases hn : flags.Name = ""
  · rw [if_pos hn] at h ⊢
    rcases han : askOneName env.nameInputs with ⟨r, nevs⟩
    rw [han] at h
    cases r with
    | error err => simp at h
    | ok name =>
      have h2 : (runProjectStep env { flags with Name := name }).result = .ok () := h
      show reportsOkPath env
        ⟨(runProjectStep env { flags with Name := name }).result,
         nevs ++ (runProjectStep env { flags with Name := name }).events,
         (runProjectStep env { flags with Name := name }).flags⟩
      refine reportsOkPath_mono env (runProjectStep env { flags with Name := name })
        _ rfl ?_ (runProjectStep_ok env _ h2)
      intro e he
      exact List.mem_append.2 (Or.inr he)
  · rw [if_neg hn] at h ⊢
    exact runProjectStep_ok env flags h

/-! Claim theorems. -/

/-- C1: the service-account name validator used by the interactive name
prompt rejects every candidate name of (Go) length < 6 with the
too-short error, and accepts every candidate name of length ≥ 6. -/
theorem C1_name_validator (s : String) :
    (goLen s < 6 →
      nameValidator s = .error "Service Account name must be longer than 5 characters")
    ∧ (6 ≤ goLen s → nameValidator s = .ok ()) := by
  constructor
  · intro h; simp [nameValidator, h]
  · intro h
    have h6 : ¬ goLen s < 6 := by omega
    simp [nameValidator, h6]

/-- Witness for C1 at the concrete names "abc" and "abcdef". -/
theorem C1_name_validator_witness :
    nameValidator "abc" = .error "Service Account name must be longer than 5 characters"
    ∧ nameValidator "abcdef" = .ok () :=
  ⟨(C1_name_validator "abc").1 (by decide), (C1_name_validator "abcdef").2 (by decide)⟩

/-- C4: with exactly one existing project (a project identifier being a
non-empty string), `getGoogleProjectId` returns that project without error
and its event trace contains no selection prompt. -/
theorem C4_single_project (env : Env) (p : String)
    (hl : env.projectsResult = .ok [p]) (hp : p ≠ "") :
    (getGoogleProjectId env).1 = .ok p
    ∧ ((getGoogleProjectId env).2.all fun e => !(isSelectPromptEv e)) = true := by
  simp [getGoogleProjectId, hl, finishProjectId, hp, isSelectPromptEv]

/-- Witness for C4: one existing project "proj-1" is returned as is. -/
theorem C4_single_project_witness :
    (getGoogleProjectId envOneProject).1 = .ok "proj-1"
    ∧ ((getGoogleProjectId envOneProject).2.all fun e => !(isSelectPromptEv e)) = true :=
  C4_single_project envOneProject "proj-1" rfl (by decide)

/-- C5: with more than one existing project, `getGoogleProjectId` shows the
selection prompt over the full list and returns exactly the chosen value
(a project identifier being a non-empty string). -/
theorem C5_many_projects (env : Env) (l : List String) (c : String)
    (hl : env.projectsResult = .ok l) (h2 : 1 < l.length)
    (hsel : env.selectResult l = .ok c) (hc : c ≠ "") :
    (getGoogleProjectId env).1 = .ok c
    ∧ Event.selectPrompt l ∈ (getGoogleProjectId env).2 := by
  have h0 : ¬ l.length = 0 := by omega
  have h1 : ¬ l.length = 1 := by omega
  simp [getGoogleProjectId, hl, h0, h1, hsel, finishProjectId, hc]

/-- Witness for C5: projects ["a", "b", "c"] with the prompt answering "b". -/
theorem C5_many_projects_witness :
    (getGoogleProjectId envThreeProjects).1 = .ok "b"
    ∧ Event.selectPrompt ["a", "b", "c"] ∈ (getGoogleProjectId envThreeProjects).2 :=
  C5_many_projects envThreeProjects ["a", "b", "c"] "b" rfl (by decide) (by decide)
    (by decide)

/-- C6: with zero existing projects and the confirmation answered "no",
`getGoogleProjectId` returns the manual-creation guidance error (so it never
returns a project identifier). -/
theorem C6_zero_projects_no (env : Env)
    (hl : env.projectsResult = .ok ([] : List String))
    (hc : env.confirmResult = .ok false) :
    (getGoogleProjectId env).1 = .error noProjectErr := by
  simp [getGoogleProjectId, hl, hc]

/-- Witness for C6 at a concrete zero-project environment. -/
theorem C6_zero_projects_no_witness :
    (getGoogleProjectId envZeroProjectsNo).1 = .error noProjectErr :=
  C6_zero_projects_no envZeroProjectsNo rfl rfl

/-- C7: with zero existing projects and the confirmation answered "yes",
`getGoogleProjectId` returns the "not yet implemented" guidance error rather
than creating a project or returning a project identifier. -/
theorem C7_zero_projects_yes (env : Env)
    (hl : env.projectsResult = .ok ([] : List String))
    (hc : env.confirmResult = .ok true) :
    (getGoogleProjectId env).1 = .error notImplementedErr := by
  simp [getGoogleProjectId, hl, hc]

/-- Witness for C7 at a concrete zero-project environment. -/
theorem C7_zero_projects_yes_witness :
    (getGoogleProjectId envZeroProjectsYes).1 = .error notImplementedErr :=
  C7_zero_projects_yes envZeroProjectsYes rfl rfl

/-- C8: whatever the prompt outcomes and projects list, if
`getGoogleProjectId` returns without error its project identifier is
non-empty; and the trailing defensive check maps an empty resolved
identifier to the guidance error. -/
theorem C8_nonempty_result (env : Env) :
    (∀ pid, (getGoogleProjectId env).1 = .ok pid → pid ≠ "")
    ∧ ∀ evs, (finishProjectId "" evs).1 = .error emptyProjectErr := by
  constructor
  · intro pid h
    unfold getGoogleProjectId at h
    split at h
    · simp at h
    · split at h
      · split at h
        · simp at h
        · split at h <;> simp at h
      · split at h
        · exact (finishProjectId_ok h).2
        · split at h
          · simp at h
          · exact (finishProjectId_ok h).2
  · intro evs
    simp [finishProjectId]

/-- Witness for C8: a successfully resolved identifier is non-empty, and the
defensive check fires on the empty identifier. -/
theorem C8_nonempty_result_witness :
    "proj-1" ≠ ""
    ∧ (finishProjectId "" [Event.listProjects]).1 = .error emptyProjectErr :=
  ⟨(C8_nonempty_result envOneProject).1 "proj-1" (by decide),
   (C8_nonempty_result envOneProject).2 [Event.listProjects]⟩

/-- C2 (counterexample): a name supplied through the --name flag bypasses the
length validation entirely: with Name = "abc" the run reaches
`GetOrCreateServiceAccount` with the 3-byte name "abc", of length < 6. -/
theorem C2_flag_name_counterexample :
    Event.getOrCreate "abc" "proj-1" "/home/user" ∈
      (Run envOneProject ⟨"abc", "proj-1", true⟩).events
    ∧ goLen "abc" < 6 := by decide

/-- C2 (amended): only a name resolved through the interactive prompt is
guaranteed to have length ≥ 6: when the name flag starts empty, every name
passed to `GetOrCreateServiceAccount` during the run has (Go) length ≥ 6. -/
theorem C2_prompted_name_min_length (env : Env)
    (flags : CreateGkeServiceAccountFlags) (hname : flags.Name = "")
    (n p h : String)
    (hev : Event.getOrCreate n p h ∈ (Run env flags).events) :
    6 ≤ goLen n := by
  unfold Run at hev
  cases hs : flags.SkipLogin with
  | true =>
    rw [hs, Bool.not_true, if_neg Bool.false_ne_true] at hev
    exact runNameStep_getOrCreate_valid env flags hname hev
  | false =>
    rw [hs, Bool.not_false, if_pos rfl] at hev
    cases hl : env.loginResult with
    | error e =>
      rw [hl] at hev
      simp at hev
    | ok u =>
      rw [hl] at hev
      rcases List.mem_cons.1 hev with h1 | h1
      · simp at h1
      · exact runNameStep_getOrCreate_valid env flags hname h1

/-- Witness for C2 (amended): the prompted name "svc-account" reaches
`GetOrCreateServiceAccount` and indeed has length ≥ 6. -/
theorem C2_prompted_name_min_length_witness : 6 ≤ goLen "svc-account" :=
  C2_prompted_name_min_length envOneProject ⟨"", "", true⟩ rfl "svc-account"
    "proj-1" "/home/user" (by decide)

/-- C3 (counterexample): the Go `Run` signature is `Run() error` — the
return value does not carry the credential key path. Two successful runs
whose providers issue different key paths have identical return values. -/
theorem C3_result_counterexample :
    (Run envKeyPathA ⟨"svc-name", "proj-1", true⟩).result = .ok ()
    ∧ (Run envKeyPathB ⟨"svc-name", "proj-1", true⟩).result
        = (Run envKeyPathA ⟨"svc-name", "proj-1", true⟩).result
    ∧ envKeyPathA.getOrCreateResult "svc-name" "proj-1" "/home/user"
        = .ok "/home/user/keyA.json"
    ∧ envKeyPathB.getOrCreateResult "svc-name" "proj-1" "/home/user"
        = .ok "/home/user/keyB.json" := by decide

/-- C3 (amended): `Run` returns only an error; on success the key path
obtained from `GetOrCreateServiceAccount` at the final flag values is
reported unchanged, in the "Created service account key" log message. -/
theorem C3_success_reports_path (env : Env)
    (flags : CreateGkeServiceAccountFlags)
    (h : (Run env flags).result = .ok ()) :
    reportsOkPath env (Run env flags) := by
  unfold Run at h ⊢
  cases hs : flags.SkipLogin with
  | true =>
    rw [hs] at h
    rw [Bool.not_true, if_neg Bool.false_ne_true] at h ⊢
    exact runNameStep_ok env flags h
  | false =>
    rw [hs] at h
    rw [Bool.not_false, if_pos rfl] at h ⊢
    cases hl : env.loginResult with
    | error e =>
      rw [hl] at h
      simp at h
    | ok u =>
      rw [hl] at h
      have h2 : (runNameStep env flags).result = .ok () := h
      show reportsOkPath env
        ⟨(runNameStep env flags).result,
         Event.login :: (runNameStep env flags).events,
         (runNameStep env flags).flags⟩
      refine reportsOkPath_mono env (runNameStep env flags) _ rfl ?_
        (runNameStep_ok env flags h2)
      intro e he
      exact List.mem_cons_of_mem _ he

/-- Witness for C3 (amended) at a concrete successful run. -/
theorem C3_success_reports_path_witness :
    reportsOkPath envOneProject (Run envOneProject ⟨"svc-name", "", true⟩) :=
  C3_success_reports_path envOneProject ⟨"svc-name", "", true⟩ (by decide)

/-- C9: when skipLogin is false the login shell-out is the first event, and a
failing login is returned unchanged with no later step executed; when
skipLogin is true the login step never runs. -/
theorem C9_login_first (env : Env) (flags : CreateGkeServiceAccountFlags) :
    (flags.SkipLogin = false →
      (Run env flags).events.head? = some Event.login
      ∧ ∀ e, env.loginResult = .error e →
          (Run env flags).result = .error e
          ∧ (Run env flags).events = [Event.login])
    ∧ (flags.SkipLogin = true → Event.login ∉ (Run env flags).events) := by
  constructor
  · intro hs
    unfold Run
    rw [hs, Bool.not_false, if_pos rfl]
    cases hl : env.loginResult with
    | error e =>
      refine ⟨rfl, ?_⟩
      intro e2 he2
      injection he2 with h3
      subst h3
      exact ⟨rfl, rfl⟩
    | ok u =>
      refine ⟨rfl, ?_⟩
      intro e2 he2
      exact absurd he2 (by simp)
  · intro hs
    unfold Run
    rw [hs, Bool.not_true, if_neg Bool.false_ne_true]
    intro hmem
    rcases runNameStep_events_mem env flags _ hmem with h1 | h1 | ⟨s, h1⟩ | ⟨n, p, hh, h1⟩ <;>
      simp [isResolverEv] at h1

/-- Witness for C9: a concrete failing login is surfaced unchanged as the
only step, and a skip-login run never shells out to login. -/
theorem C9_login_first_witness :
    (Run envLoginFail ⟨"svc-name", "proj-1", false⟩).events.head? = some Event.login
    ∧ (Run envLoginFail ⟨"svc-name", "proj-1", false⟩).result = .error (.msg "login failed")
    ∧ (Run envLoginFail ⟨"svc-name", "proj-1", false⟩).events = [Event.login]
    ∧ Event.login ∉ (Run envOneProject ⟨"svc-name", "proj-1", true⟩).events := by
  refine ⟨((C9_login_first envLoginFail ⟨"svc-name", "proj-1", false⟩).1 rfl).1, ?_, ?_,
    (C9_login_first envOneProject ⟨"svc-name", "proj-1", true⟩).2 rfl⟩
  · exact (((C9_login_first envLoginFail ⟨"svc-name", "proj-1", false⟩).1 rfl).2
      (.msg "login failed") rfl).1
  · exact (((C9_login_first envLoginFail ⟨"svc-name", "proj-1", false⟩).1 rfl).2
      (.msg "login failed") rfl).2

/-- C10: a non-empty project flag suppresses the project resolver — no
project listing and no project prompt occur — and is left unchanged for the
rest of the run; the Project field changes only when it starts empty, and
then only to the value the resolver returned. -/
theorem C10_project_flag_frame (env : Env)
    (flags : CreateGkeServiceAccountFlags) :
    (flags.Project ≠ "" →
      ((Run env flags).events.all fun e => !(isResolverEv e)) = true
      ∧ (Run env flags).flags.Project = flags.Project)
    ∧ ((Run env flags).flags.Project ≠ flags.Project →
      flags.Project = ""
      ∧ (getGoogleProjectId env).1 = .ok ((Run env flags).flags.Project)) := by
  constructor
  · intro hp
    unfold Run
    cases hs : flags.SkipLogin with
    | true =>
      rw [Bool.not_true, if_neg Bool.false_ne_true]
      exact runNameStep_frame env flags hp
    | false =>
      rw [Bool.not_false, if_pos rfl]
      cases hl : env.loginResult with
      | error e => exact ⟨rfl, rfl⟩
      | ok u =>
        constructor
        · show ((Event.login :: (runNameStep env flags).events).all
              fun e => !(isResolverEv e)) = true
          rw [List.all_cons, (runNameStep_frame env flags hp).1]
          rfl
        · exact (runNameStep_frame env flags hp).2
  · intro hch
    unfold Run at hch ⊢
    cases hs : flags.SkipLogin with
    | true =>
      rw [hs] at hch
      rw [Bool.not_true, if_neg Bool.false_ne_true] at hch ⊢
      exact runNameStep_project_change env flags hch
    | false =>
      rw [hs] at hch
      rw [Bool.not_false, if_pos rfl] at hch ⊢
      cases hl : env.loginResult with
      | error e =>
        rw [hl] at hch
        exact absurd rfl hch
      | ok u =>
        rw [hl] at hch
        exact runNameStep_project_change env flags hch

/-- Witness for C10: a run with project flag "proj-1" issues no resolver
interaction and keeps the flag; a run with an empty project flag ends with
exactly the project the resolver returned. -/
theorem C10_project_flag_frame_witness :
    (((Run envOneProject ⟨"svc-name", "proj-1", true⟩).events.all
        fun e => !(isResolverEv e)) = true
      ∧ (Run envOneProject ⟨"svc-name", "proj-1", true⟩).flags.Project = "proj-1")
    ∧ ("" = ""
      ∧ (getGoogleProjectId envOneProject).1
          = .ok ((Run envOneProject ⟨"", "", true⟩).flags.Project)) :=
  ⟨(C10_project_flag_frame envOneProject ⟨"svc-name", "proj-1", true⟩).1 (by decide),
   (C10_project_flag_frame envOneProject ⟨"", "", true⟩).2 (by decide)⟩

end CreateGkeSA
